import Mathlib

/-!
Shallow embedding of the filter-and-aggregate pipeline with linear trend
projection from the Safe Walk crime dashboards (`modernUI.py`, `app.py`).

The scripts load a table of crime incidents, where each row has a `Date`
parsed by `pd.to_datetime(..., errors=coerce)` (failures become the missing
value `NaT`, hence the derived `Year` column holds the `NA` sentinel), and a
categorical `Primary Type` label.  A sidebar supplies an inclusive year range
and a list of selected crime types.  The scripts then compute

  filtered = df[(df[Year] >= lo) & (df[Year] <= hi)]
  if selected_types: filtered = filtered[filtered[Primary Type].isin(selected_types)]
  yearly = filtered.groupby(Year).size()          -- sorted by year
  if len(yearly) >= 5:
      coeffs = np.polyfit(recent 5 years, counts, 1)
      pred_2026 = int(round(coeffs[0] * 2026 + coeffs[1])); clamp below at 0

Machine floats of `np.polyfit` are modelled by exact rationals: the degree-1
least-squares fit is the unique solution of the normal equations when the
sample years are not all equal, and we use its closed form.
-/

/-- One crime-incident record.  `year = none` models a row whose `Date` string
failed to parse: `pd.to_datetime(..., errors=coerce)` yields `NaT` and the
derived `Year` column holds the missing-value sentinel `NA` (`modernUI.py`
lines 42 to 44, `app.py` lines 40 to 42).  `primaryType` models the
`Primary Type` column. -/
structure Incident where
  year : Option ℤ
  primaryType : String
deriving DecidableEq

/-- The sidebar state: an inclusive year range from the slider and the list of
crime types picked in the multiselect (empty list when nothing is picked). -/
structure FilterCriteria where
  minYear : ℤ
  maxYear : ℤ
  selectedTypes : List String
deriving DecidableEq

/-- The year-range mask `(df[Year] >= lo) & (df[Year] <= hi)`
(`modernUI.py` line 79).  A row whose `Year` is `NA` compares as `NA`, which
boolean indexing treats as `False`, so unparseable rows are dropped. -/
def yearOk (c : FilterCriteria) (i : Incident) : Bool :=
  match i.year with
  | some y => decide (c.minYear ≤ y) && decide (y ≤ c.maxYear)
  | none => false

/-- The filter pipeline of `modernUI.py` lines 77 to 82 (`app.py` lines 81
to 90): apply the year-range mask, then `if selected_types:` restrict to rows
whose `Primary Type` is in the selection; an empty selection applies no type
filter at all. -/
def filterIncidents (df : List Incident) (c : FilterCriteria) : List Incident :=
  let byYear := df.filter (fun i => yearOk c i)
  if c.selectedTypes.isEmpty then byYear
  else byYear.filter (fun i => c.selectedTypes.contains i.primaryType)

/-- The parseable years of a table, one entry per row whose timestamp parsed
(the `Year` column with `NA` entries dropped, multiplicities kept). -/
def yearsOf (df : List Incident) : List ℤ :=
  df.filterMap (fun i => i.year)

/-- The yearly aggregate `filtered.groupby(Year).size()` followed by
`sort_values(Year)` (`modernUI.py` lines 86 to 87, `app.py` line 133): one
entry per distinct parseable year, sorted ascending, paired with the number of
rows of that year.  `groupby` excludes the `NA` key.  (Pandas sorts group keys;
`List.insertionSort` realises the same sorted result.) -/
def yearlyAgg (df : List Incident) : List (ℤ × ℕ) :=
  (List.insertionSort (fun a b => a ≤ b) (yearsOf df).dedup).map
    (fun y => (y, (yearsOf df).count y))

/-- Count of rows of `len(...)` as the dashboards use it for metric cards. -/
def totalCount (df : List Incident) : ℕ :=
  df.length

/-- Sum of the x coordinates of a point list. -/
def sX (pts : List (ℚ × ℚ)) : ℚ :=
  (pts.map (fun p => p.1)).sum

/-- Sum of the y coordinates of a point list. -/
def sY (pts : List (ℚ × ℚ)) : ℚ :=
  (pts.map (fun p => p.2)).sum

/-- Sum of the squared x coordinates of a point list. -/
def sXX (pts : List (ℚ × ℚ)) : ℚ :=
  (pts.map (fun p => p.1 * p.1)).sum

/-- Sum of the products x·y over a point list. -/
def sXY (pts : List (ℚ × ℚ)) : ℚ :=
  (pts.map (fun p => p.1 * p.2)).sum

/-- Determinant `n·Σx² − (Σx)²` of the degree-1 normal equations; nonzero
exactly when the sample x values are not all equal. -/
def olsDenom (pts : List (ℚ × ℚ)) : ℚ :=
  (pts.length : ℚ) * sXX pts - sX pts * sX pts

/-- Slope returned first in `np.polyfit(x, y, 1)` (`modernUI.py` line 97):
closed form of the ordinary-least-squares line through the points. -/
def olsSlope (pts : List (ℚ × ℚ)) : ℚ :=
  ((pts.length : ℚ) * sXY pts - sX pts * sY pts) / olsDenom pts

/-- Intercept returned second in `np.polyfit(x, y, 1)` (`modernUI.py`
line 97). -/
def olsIntercept (pts : List (ℚ × ℚ)) : ℚ :=
  (sY pts - olsSlope pts * sX pts) / (pts.length : ℚ)

/-- The fitted line `count = a·year + b` evaluated at an arbitrary year `t`. -/
def lineAt (pts : List (ℚ × ℚ)) (t : ℚ) : ℚ :=
  olsSlope pts * t + olsIntercept pts

/-- Python `round`: nearest integer with ties going to the even neighbour
(the rounding applied by `int(round(...))` on `modernUI.py` line 98). -/
def roundHalfEven (q : ℚ) : ℤ :=
  if q - (⌊q⌋ : ℚ) < 1/2 then ⌊q⌋
  else if (1:ℚ)/2 < q - (⌊q⌋ : ℚ) then ⌊q⌋ + 1
  else if ⌊q⌋ % 2 = 0 then ⌊q⌋ else ⌊q⌋ + 1

/-- The trailing window `yearly.tail(5)` (`modernUI.py` line 94): since the
aggregate is sorted by year, these are the five most recent years present. -/
def recentWindow (yearly : List (ℤ × ℕ)) : List (ℤ × ℕ) :=
  yearly.drop (yearly.length - 5)

/-- The `(year, count)` rows of an aggregate as exact rational points, the
`x`/`y` arrays handed to `np.polyfit` (`modernUI.py` lines 95 to 96). -/
def toPoints (l : List (ℤ × ℕ)) : List (ℚ × ℚ) :=
  l.map (fun p => ((p.1 : ℚ), (p.2 : ℚ)))

/-- The 2026 projection of `modernUI.py` lines 92 to 100: `pred_2026` stays
`None` unless the aggregate has at least five distinct years; otherwise the
least-squares line through the five most recent `(year, count)` points is
evaluated at the literal year 2026, rounded, and clamped below at zero. -/
def projectFromYearly (yearly : List (ℤ × ℕ)) : Option ℤ :=
  if 5 ≤ yearly.length then
    let pts := toPoints (recentWindow yearly)
    let v := roundHalfEven (olsSlope pts * 2026 + olsIntercept pts)
    some (if v < 0 then 0 else v)
  else none

/-- End-to-end pipeline of `modernUI.py`: filter, aggregate per year, then
project 2026. -/
def pred2026 (df : List Incident) (c : FilterCriteria) : Option ℤ :=
  projectFromYearly (yearlyAgg (filterIncidents df c))

/-- The filter-and-aggregate step as the script performs it, also returning
the source table afterwards: `filtered = df.copy()` (`modernUI.py` line 77)
narrows a fresh view, so the source collection comes back unchanged. -/
def runFilterAgg (df : List Incident) (c : FilterCriteria) :
    List Incident × List Incident × List (ℤ × ℕ) :=
  let f := filterIncidents df c
  (df, f, yearlyAgg f)

/-- The five most recent `(year, count)` points of the pipeline aggregate as
rational points: the data `np.polyfit` receives in `modernUI.py` lines 94
to 97. -/
def windowPts (df : List Incident) (c : FilterCriteria) : List (ℚ × ℚ) :=
  toPoints (recentWindow (yearlyAgg (filterIncidents df c)))

/-- Modelled from the spec: the record-keeping predicate of section 4.1,
keeping an incident exactly when its year parsed, lies in the inclusive range,
and its crime type is allowed (an empty selection allows every type).  Used to
compare the script pipeline against the specified contract. -/
def specKeep (c : FilterCriteria) (i : Incident) : Bool :=
  match i.year with
  | some y =>
      decide (c.minYear ≤ y ∧ y ≤ c.maxYear) &&
      (c.selectedTypes.isEmpty || c.selectedTypes.contains i.primaryType)
  | none => false

/-- Number of incidents of a list carrying a given parsed year. -/
def countYear (l : List Incident) (y : ℤ) : ℕ :=
  (l.filter (fun i => decide (i.year = some y))).length

/-- The observed crime types `df[Primary Type].dropna().unique()`
(`modernUI.py` line 69).  The source sorts this list for display; only its
membership matters to the filter, so the sort is omitted here. -/
def observedTypes (df : List Incident) : List String :=
  (df.map (fun i => i.primaryType)).dedup

/-- The minimum observed year `int(df[Year].min())` (`modernUI.py` line 58);
`none`-year rows are skipped by pandas `min`, and the value is absent when no
year parsed. -/
def minObsYear (df : List Incident) : Option ℤ :=
  (yearsOf df).min?

/-- The maximum observed year `int(df[Year].max())` (`modernUI.py` line 59). -/
def maxObsYear (df : List Incident) : Option ℤ :=
  (yearsOf df).max?

/-- Antisymmetry of integer order, needed to read off the characterisation of
`List.min?` and `List.max?`. -/
instance : Std.Antisymm (fun a b : ℤ => a ≤ b) :=
  ⟨fun h h2 => le_antisymm h h2⟩

/-- The post-rounding clamp `if pred_2026 < 0: pred_2026 = 0` agrees with
taking a maximum with zero. -/
theorem ite_clamp (v : ℤ) : (if v < 0 then 0 else v) = max 0 v := by
  split
  · exact (max_eq_left (le_of_lt (by assumption))).symm
  · exact (max_eq_right (not_lt.mp (by assumption))).symm

/-- Rounding a negative rational half-to-even never exceeds zero. -/
theorem roundHalfEven_nonpos (q : ℚ) (h : q < 0) : roundHalfEven q ≤ 0 := by
  have hf : ⌊q⌋ < 0 := by
    have h0 : q < ((0 : ℤ) : ℚ) := by exact_mod_cast h
    exact Int.floor_lt.mpr h0
  unfold roundHalfEven
  split
  · omega
  · split
    · omega
    · split <;> omega

/-- The closed-form coefficients satisfy the normal equations of the
degree-1 least-squares problem, hence they are the ordinary-least-squares fit
whenever the determinant is nonzero. -/
theorem ols_normal (pts : List (ℚ × ℚ)) (hn : (pts.length : ℚ) ≠ 0)
    (hd : olsDenom pts ≠ 0) :
    olsSlope pts * sXX pts + olsIntercept pts * sX pts = sXY pts ∧
    olsSlope pts * sX pts + olsIntercept pts * (pts.length : ℚ) = sY pts := by
  have hD : (pts.length : ℚ) * sXX pts - sX pts * sX pts ≠ 0 := hd
  constructor
  · unfold olsIntercept olsSlope olsDenom
    field_simp
    ring
  · unfold olsIntercept olsSlope olsDenom
    field_simp
    ring

/-- Multiplicity of a year among the parseable years equals the number of
incidents carrying that year. -/
theorem count_yearsOf (l : List Incident) (y : ℤ) :
    (yearsOf l).count y = countYear l y := by
  induction l with
  | nil => rfl
  | cons i l ih =>
    unfold yearsOf countYear at *
    cases hy : i.year with
    | none => simpa [List.filterMap_cons, hy, List.filter_cons] using ih
    | some z =>
      by_cases hz : z = y
      · subst hz
        simp [List.filterMap_cons, hy, List.filter_cons, List.count_cons, ih]
      · simp [List.filterMap_cons, hy, List.filter_cons, List.count_cons, hz, ih]

/-- The parseable years are in bijection with the rows whose timestamp
parsed. -/
theorem yearsOf_length (l : List Incident) :
    (yearsOf l).length = (l.filter (fun i => i.year.isSome)).length := by
  induction l with
  | nil => rfl
  | cons i l ih =>
    unfold yearsOf at *
    cases hy : i.year <;> simp [List.filterMap_cons, hy, List.filter_cons, ih]

/-- Membership in the filtered view implies membership in the source and
passage of the year-range mask. -/
theorem mem_filterIncidents {df : List Incident} {c : FilterCriteria} {i : Incident}
    (h : i ∈ filterIncidents df c) : i ∈ df ∧ yearOk c i = true := by
  unfold filterIncidents at h
  by_cases he : c.selectedTypes.isEmpty = true
  · simp only [he, if_true] at h
    exact ⟨(List.mem_filter.mp h).1, (List.mem_filter.mp h).2⟩
  · simp only [he, if_false] at h
    have h2 := List.mem_filter.mp h
    exact ⟨(List.mem_filter.mp h2.1).1, (List.mem_filter.mp h2.1).2⟩

/-- The total row count splits into rows with a parseable timestamp and rows
with the unknown sentinel. -/
theorem length_split_isSome (l : List Incident) :
    totalCount l = (l.filter (fun i => i.year.isSome)).length +
      (l.filter (fun i => i.year.isNone)).length := by
  unfold totalCount
  induction l with
  | nil => rfl
  | cons i l ih => cases hy : i.year <;> simp [List.filter_cons, hy, ih] <;> omega

/-- The yearly aggregate is sorted ascending by year. -/
theorem yearlyAgg_sorted (l : List Incident) :
    List.Pairwise (fun p q : ℤ × ℕ => p.1 ≤ q.1) (yearlyAgg l) := by
  unfold yearlyAgg
  rw [List.pairwise_map]
  exact List.sorted_insertionSort (fun a b => a ≤ b) _

/-- Membership characterisation of the yearly aggregate: its entries are
exactly the distinct parseable years paired with their incident counts. -/
theorem mem_yearlyAgg (l : List Incident) (y : ℤ) (n : ℕ) :
    (y, n) ∈ yearlyAgg l ↔ y ∈ yearsOf l ∧ n = countYear l y := by
  unfold yearlyAgg
  rw [List.mem_map]
  constructor
  · rintro ⟨x, hx, hxy⟩
    have h1 : x = y := congrArg Prod.fst hxy
    have h2 : (yearsOf l).count x = n := congrArg Prod.snd hxy
    subst h1
    refine ⟨List.mem_dedup.mp ((List.mem_insertionSort _).mp hx), ?_⟩
    rw [← h2, count_yearsOf]
  · rintro ⟨hy, hn⟩
    refine ⟨y, (List.mem_insertionSort _).mpr (List.mem_dedup.mpr hy), ?_⟩
    rw [hn, count_yearsOf]

/-- Each distinct year appears at most once in the yearly aggregate. -/
theorem yearlyAgg_keys_nodup (l : List Incident) :
    ((yearlyAgg l).map Prod.fst).Nodup := by
  unfold yearlyAgg
  rw [List.map_map]
  have he : (Prod.fst ∘ fun y => (y, (yearsOf l).count y)) = id := rfl
  rw [he, List.map_id]
  exact ((List.perm_insertionSort _ _).nodup_iff).mpr (List.nodup_dedup _)

/-- C1: for every incident collection and filter criteria, the pipeline
returns exactly the incidents whose year lies within the inclusive range and
whose crime type is in the allowed set (an empty set meaning no type
filtering), and the yearly aggregate maps each distinct year present in that
subset, exactly once, to its incident count. -/
theorem filter_aggregate_contract (df : List Incident) (c : FilterCriteria) :
    filterIncidents df c = df.filter (fun i => specKeep c i) ∧
    (∀ y n, (y, n) ∈ yearlyAgg (filterIncidents df c) ↔
      y ∈ yearsOf (filterIncidents df c) ∧ n = countYear (filterIncidents df c) y) ∧
    ((yearlyAgg (filterIncidents df c)).map Prod.fst).Nodup := by
  refine ⟨?_, fun y n => mem_yearlyAgg _ y n, yearlyAgg_keys_nodup _⟩
  unfold filterIncidents
  by_cases he : c.selectedTypes.isEmpty = true
  · simp only [he, if_true]
    apply List.filter_congr
    intro i _
    cases hy : i.year <;> simp [yearOk, specKeep, hy, he, Bool.decide_and]
  · simp only [he, if_false]
    rw [List.filter_filter]
    apply List.filter_congr
    intro i _
    have he2 : c.selectedTypes.isEmpty = false := by simpa using he
    cases hy : i.year <;>
      simp [yearOk, specKeep, hy, he2, Bool.decide_and, Bool.and_comm]

/-- C2 counterexample: the claim says the fitted line is evaluated one year
beyond the latest observed year, which for the window 2020 to 2024 with counts
100 to 140 would be year 2025 and value 150; the code instead evaluates the
line at the fixed year 2026 and returns 160. -/
theorem projection_target_not_latest_plus_one :
    projectFromYearly [(2020, 100), (2021, 110), (2022, 120), (2023, 130), (2024, 140)] =
      some 160 ∧
    roundHalfEven (lineAt (toPoints
      [(2020, 100), (2021, 110), (2022, 120), (2023, 130), (2024, 140)]) 2025) = 150 ∧
    (160 : ℤ) ≠ 150 := by
  refine ⟨?_, ?_, by decide⟩
  · norm_num [projectFromYearly, toPoints, recentWindow, olsSlope, olsIntercept,
      olsDenom, sX, sY, sXX, sXY, roundHalfEven]
  · norm_num [lineAt, toPoints, olsSlope, olsIntercept, olsDenom, sX, sY, sXX, sXY,
      roundHalfEven]

/-- C2 amended: with at least five distinct years, the projector takes exactly
the five most recent years of the aggregate ordered by year value, the fitted
coefficients satisfy the ordinary-least-squares normal equations on those
points, and the line is evaluated at the fixed target year 2026 (rounded, then
clamped at zero). -/
theorem trend_window_ols_target2026 (df : List Incident) (c : FilterCriteria)
    (h5 : 5 ≤ (yearlyAgg (filterIncidents df c)).length)
    (hd : olsDenom (windowPts df c) ≠ 0) :
    (windowPts df c).length = 5 ∧
    (∀ p ∈ (yearlyAgg (filterIncidents df c)).take
        ((yearlyAgg (filterIncidents df c)).length - 5),
      ∀ q ∈ recentWindow (yearlyAgg (filterIncidents df c)), p.1 ≤ q.1) ∧
    (olsSlope (windowPts df c) * sXX (windowPts df c) +
        olsIntercept (windowPts df c) * sX (windowPts df c) = sXY (windowPts df c) ∧
      olsSlope (windowPts df c) * sX (windowPts df c) +
        olsIntercept (windowPts df c) * 5 = sY (windowPts df c)) ∧
    pred2026 df c =
      some (max 0 (roundHalfEven (olsSlope (windowPts df c) * 2026 +
        olsIntercept (windowPts df c)))) := by
  have hlen : (windowPts df c).length = 5 := by
    unfold windowPts toPoints recentWindow
    rw [List.length_map, List.length_drop]
    omega
  refine ⟨hlen, ?_, ?_, ?_⟩
  · have hs := yearlyAgg_sorted (filterIncidents df c)
    have hp := List.pairwise_append.mp
      (by rw [List.take_append_drop]; exact hs :
        List.Pairwise (fun p q : ℤ × ℕ => p.1 ≤ q.1)
          ((yearlyAgg (filterIncidents df c)).take
              ((yearlyAgg (filterIncidents df c)).length - 5) ++
            (yearlyAgg (filterIncidents df c)).drop
              ((yearlyAgg (filterIncidents df c)).length - 5)))
    exact hp.2.2
  · have hn : ((windowPts df c).length : ℚ) ≠ 0 := by rw [hlen]; norm_num
    have h := ols_normal (windowPts df c) hn hd
    refine ⟨h.1, ?_⟩
    have h2 := h.2
    rw [hlen] at h2
    exact_mod_cast h2
  · unfold pred2026 projectFromYearly
    rw [if_pos h5]
    dsimp only
    rw [ite_clamp]
    rfl

/-- Witness for C2 amended: five one-incident years 2020 to 2024 pass both
hypotheses, and the pipeline output is the clamped rounded line value at
2026. -/
theorem trend_window_ols_target2026_witness :
    pred2026 [⟨some 2020, "A"⟩, ⟨some 2021, "A"⟩, ⟨some 2022, "A"⟩,
        ⟨some 2023, "A"⟩, ⟨some 2024, "A"⟩] ⟨2000, 2030, []⟩ =
      some (max 0 (roundHalfEven
        (olsSlope (windowPts [⟨some 2020, "A"⟩, ⟨some 2021, "A"⟩, ⟨some 2022, "A"⟩,
            ⟨some 2023, "A"⟩, ⟨some 2024, "A"⟩] ⟨2000, 2030, []⟩) * 2026 +
          olsIntercept (windowPts [⟨some 2020, "A"⟩, ⟨some 2021, "A"⟩, ⟨some 2022, "A"⟩,
            ⟨some 2023, "A"⟩, ⟨some 2024, "A"⟩] ⟨2000, 2030, []⟩)))) :=
  (trend_window_ols_target2026 [⟨some 2020, "A"⟩, ⟨some 2021, "A"⟩, ⟨some 2022, "A"⟩,
      ⟨some 2023, "A"⟩, ⟨some 2024, "A"⟩] ⟨2000, 2030, []⟩
    (by decide)
    (by
      have hagg : yearlyAgg (filterIncidents [⟨some 2020, "A"⟩, ⟨some 2021, "A"⟩,
          ⟨some 2022, "A"⟩, ⟨some 2023, "A"⟩, ⟨some 2024, "A"⟩] ⟨2000, 2030, []⟩) =
          [(2020, 1), (2021, 1), (2022, 1), (2023, 1), (2024, 1)] := by decide
      unfold windowPts
      rw [hagg]
      norm_num [toPoints, recentWindow, olsDenom, sX, sXX])).2.2.2

/-- C3: with fewer than five distinct years in the aggregate, including the
empty aggregate of an empty filtered set, the projection is the distinct
no-data outcome `none` and never a numeric value, while the filter and
aggregate results remain available. -/
theorem insufficient_data_none (df : List Incident) (c : FilterCriteria) :
    ((yearlyAgg (filterIncidents df c)).length < 5 → pred2026 df c = none) ∧
    (filterIncidents df c = [] →
      yearlyAgg (filterIncidents df c) = [] ∧ pred2026 df c = none) := by
  constructor
  · intro h
    unfold pred2026 projectFromYearly
    rw [if_neg (by omega)]
  · intro h
    unfold pred2026
    rw [h]
    exact ⟨rfl, rfl⟩

/-- Witness for C3: the empty collection filters to an empty set and the
projection declines. -/
theorem insufficient_data_none_witness : pred2026 [] ⟨0, 0, []⟩ = none :=
  (insufficient_data_none [] ⟨0, 0, []⟩).1 (by decide)

/-- C4: whenever the fitted line evaluates to a negative number at the target
year, the projection returns 0; the returned projected count is never
negative. -/
theorem projection_clamped_nonneg (yearly : List (ℤ × ℕ)) :
    (∀ v : ℤ, projectFromYearly yearly = some v → 0 ≤ v) ∧
    (5 ≤ yearly.length → lineAt (toPoints (recentWindow yearly)) 2026 < 0 →
      projectFromYearly yearly = some 0) := by
  constructor
  · intro v h
    unfold projectFromYearly at h
    split at h
    · rw [Option.some_inj] at h
      subst h
      split <;> omega
    · exact absurd h (by simp)
  · intro h5 hneg
    have hr : roundHalfEven (olsSlope (toPoints (recentWindow yearly)) * 2026 +
        olsIntercept (toPoints (recentWindow yearly))) ≤ 0 :=
      roundHalfEven_nonpos _ hneg
    unfold projectFromYearly
    rw [if_pos h5, Option.some_inj]
    split <;> omega

/-- Witness for C4: a sharply declining series whose line value at 2026 is
negative projects to 0. -/
theorem projection_clamped_nonneg_witness :
    projectFromYearly [(2020, 5), (2021, 4), (2022, 3), (2023, 2), (2024, 1)] = some 0 :=
  (projection_clamped_nonneg [(2020, 5), (2021, 4), (2022, 3), (2023, 2), (2024, 1)]).2
    (by decide)
    (by norm_num [lineAt, toPoints, recentWindow, olsSlope, olsIntercept, olsDenom,
      sX, sY, sXX, sXY])

/-- C5: the sum of the yearly-aggregate counts equals the number of incidents
in the filtered subset that have a parseable timestamp. -/
theorem aggregate_sum_eq_filtered_size (df : List Incident) (c : FilterCriteria) :
    ((yearlyAgg (filterIncidents df c)).map Prod.snd).sum =
      ((filterIncidents df c).filter (fun i => i.year.isSome)).length := by
  have key : ∀ l : List Incident,
      ((yearlyAgg l).map Prod.snd).sum = (yearsOf l).length := by
    intro l
    unfold yearlyAgg
    rw [List.map_map]
    have hp : ((List.insertionSort (fun a b => a ≤ b) (yearsOf l).dedup).map
          (fun y => (yearsOf l).count y)).Perm
        ((yearsOf l).dedup.map (fun y => (yearsOf l).count y)) :=
      (List.perm_insertionSort _ _).map _
    calc ((List.insertionSort (fun a b => a ≤ b) (yearsOf l).dedup).map
            (Prod.snd ∘ fun y => (y, (yearsOf l).count y))).sum
        = ((yearsOf l).dedup.map (fun y => (yearsOf l).count y)).sum := hp.sum_eq
      _ = (yearsOf l).length := List.sum_map_count_dedup_eq_length _
  rw [key, yearsOf_length]

/-- C6: filtering by the full observed year range and the full set of observed
crime types returns exactly the original collection restricted to records with
parseable timestamps. -/
theorem full_range_filter_identity (df : List Incident) (mi ma : ℤ)
    (h1 : minObsYear df = some mi) (h2 : maxObsYear df = some ma) :
    filterIncidents df ⟨mi, ma, observedTypes df⟩ =
      df.filter (fun i => i.year.isSome) := by
  have hmin := (List.min?_eq_some_iff (fun a => le_refl a) (fun a b => min_choice a b)
    (fun a b c => le_min_iff)).mp h1
  have hmax := (List.max?_eq_some_iff (fun a => le_refl a) (fun a b => max_choice a b)
    (fun a b c => max_le_iff)).mp h2
  have hyear : df.filter (fun i => yearOk ⟨mi, ma, observedTypes df⟩ i) =
      df.filter (fun i => i.year.isSome) := by
    apply List.filter_congr
    intro i hi
    cases hy : i.year with
    | none => simp [yearOk, hy]
    | some y =>
      have hmem : y ∈ yearsOf df := List.mem_filterMap.mpr ⟨i, hi, by rw [hy]⟩
      simp [yearOk, hy, hmin.2 y hmem, hmax.2 y hmem]
  unfold filterIncidents
  by_cases he : (observedTypes df).isEmpty = true
  · simpa [he] using hyear
  · dsimp only
    simp only [he, if_false]
    rw [hyear]
    apply List.filter_eq_self.mpr
    intro i hi
    have hidf : i ∈ df := (List.mem_filter.mp hi).1
    have hty : i.primaryType ∈ observedTypes df := by
      unfold observedTypes
      exact List.mem_dedup.mpr (List.mem_map.mpr ⟨i, hidf, rfl⟩)
    simp [List.contains, List.elem_iff, hty]

/-- Witness for C6: a three-row table with one unparseable timestamp filters,
under the full observed range and type set, to its two parseable rows. -/
theorem full_range_filter_identity_witness :
    filterIncidents [⟨some 2000, "A"⟩, ⟨none, "B"⟩, ⟨some 2005, "A"⟩]
        ⟨2000, 2005, observedTypes [⟨some 2000, "A"⟩, ⟨none, "B"⟩, ⟨some 2005, "A"⟩]⟩ =
      [⟨some 2000, "A"⟩, ⟨none, "B"⟩, ⟨some 2005, "A"⟩].filter (fun i => i.year.isSome) :=
  full_range_filter_identity [⟨some 2000, "A"⟩, ⟨none, "B"⟩, ⟨some 2005, "A"⟩] 2000 2005
    (by decide) (by decide)

/-- C7: the filter and aggregate step is a pure function: identical inputs
give identical outputs, the source collection comes back unchanged, and the
whole result is determined by the two pure component functions. -/
theorem filter_aggregate_pure (df : List Incident) (c : FilterCriteria) :
    runFilterAgg df c = runFilterAgg df c ∧
    (runFilterAgg df c).1 = df ∧
    runFilterAgg df c = (df, filterIncidents df c, yearlyAgg (filterIncidents df c)) :=
  ⟨rfl, rfl, rfl⟩

/-- C8: records with the unparseable-timestamp sentinel are excluded from the
time-based filtered view and from the yearly aggregate, while the total row
count still counts them; the sentinel is a value, not an error. -/
theorem unparseable_asymmetry (df : List Incident) (c : FilterCriteria) :
    (∀ i ∈ filterIncidents df c, i.year ≠ none) ∧
    (∀ p ∈ yearlyAgg (filterIncidents df c),
      ∃ i ∈ filterIncidents df c, i.year = some p.1) ∧
    totalCount df = (df.filter (fun i => i.year.isSome)).length +
      (df.filter (fun i => i.year.isNone)).length := by
  refine ⟨?_, ?_, length_split_isSome df⟩
  · intro i hi
    have hok := (mem_filterIncidents hi).2
    unfold yearOk at hok
    cases hy : i.year with
    | none => rw [hy] at hok; exact absurd hok (by simp)
    | some z => simp [hy]
  · intro p hp
    have hmem : (p.1, p.2) ∈ yearlyAgg (filterIncidents df c) := by simpa using hp
    have hy := ((mem_yearlyAgg _ p.1 p.2).mp hmem).1
    obtain ⟨i, hi, hyi⟩ := List.mem_filterMap.mp hy
    exact ⟨i, hi, hyi⟩

/-- Witness for C8: in a two-row table with one unparseable row, the parseable
row sits in the filtered view with a known year. -/
theorem unparseable_asymmetry_witness :
    (⟨some 2020, "T"⟩ : Incident).year ≠ none :=
  (unparseable_asymmetry [⟨some 2020, "T"⟩, ⟨none, "T"⟩] ⟨2000, 2030, []⟩).1
    ⟨some 2020, "T"⟩ (by decide)

/-- C9: with at least five distinct years, the projection is the fitted line
evaluated at the fixed target year 2026 regardless of the latest observed
year: a window ending in 2015 extrapolates all the way to 2026 (yielding 250
on the sample data), not one year beyond 2015 (which would yield 150). -/
theorem fixed_target_2026 (yearly : List (ℤ × ℕ)) (h5 : 5 ≤ yearly.length) :
    projectFromYearly yearly =
      some (max 0 (roundHalfEven (lineAt (toPoints (recentWindow yearly)) 2026))) ∧
    projectFromYearly [(2011, 100), (2012, 110), (2013, 120), (2014, 130), (2015, 140)] =
      some 250 ∧
    roundHalfEven (lineAt (toPoints
      [(2011, 100), (2012, 110), (2013, 120), (2014, 130), (2015, 140)]) 2016) = 150 := by
  refine ⟨?_, ?_, ?_⟩
  · unfold projectFromYearly lineAt
    rw [if_pos h5]
    dsimp only
    rw [ite_clamp]
  · norm_num [projectFromYearly, toPoints, recentWindow, olsSlope, olsIntercept,
      olsDenom, sX, sY, sXX, sXY, roundHalfEven]
  · norm_num [lineAt, toPoints, olsSlope, olsIntercept, olsDenom, sX, sY, sXX, sXY,
      roundHalfEven]

/-- Witness for C9: the sample window ending in 2015 projects 250 at the fixed
target 2026. -/
theorem fixed_target_2026_witness :
    projectFromYearly [(2011, 100), (2012, 110), (2013, 120), (2014, 130), (2015, 140)] =
      some 250 :=
  (fixed_target_2026 [(2011, 100), (2012, 110), (2013, 120), (2014, 130), (2015, 140)]
    (by decide)).2.1

/-- C10: the projected value is rounded to an integer before the
non-negativity clamp is applied, so the returned projection is always a
non-negative integer. -/
theorem round_before_clamp_nonneg (yearly : List (ℤ × ℕ)) (h5 : 5 ≤ yearly.length) :
    projectFromYearly yearly =
      some (max 0 (roundHalfEven (lineAt (toPoints (recentWindow yearly)) 2026))) ∧
    ∀ v : ℤ, projectFromYearly yearly = some v → 0 ≤ v := by
  constructor
  · unfold projectFromYearly lineAt
    rw [if_pos h5]
    dsimp only
    rw [ite_clamp]
  · intro v h
    unfold projectFromYearly at h
    rw [if_pos h5] at h
    dsimp only at h
    rw [Option.some_inj] at h
    subst h
    split <;> omega

/-- Witness for C10: a five-year constant series returns the clamped rounded
line value. -/
theorem round_before_clamp_nonneg_witness :
    projectFromYearly [(2016, 3), (2017, 3), (2018, 3), (2019, 3), (2020, 3)] =
      some (max 0 (roundHalfEven (lineAt (toPoints (recentWindow
        [(2016, 3), (2017, 3), (2018, 3), (2019, 3), (2020, 3)])) 2026))) :=
  (round_before_clamp_nonneg [(2016, 3), (2017, 3), (2018, 3), (2019, 3), (2020, 3)]
    (by decide)).1
